import Mathlib

/-!
Shallow embedding of the row comparator of `src/Compare.py`
(quarter-over-quarter spreadsheet diff/highlighter).

Tables loaded through pandas (`read_df`, all values coerced to strings,
missing cells represented as the empty string) are modelled as `DataFrame`;
the openpyxl worksheet of the second (current) workbook is modelled as
`Worksheet`.  The in-memory program state threaded through the row loop is
`ProgState`; the only writes the loop performs on it are the rich-text
rewrites of worksheet cells done by `apply_word_diff` (cell fills are pure
styling and carry no cell value, so they are not part of the state).

The classification output that the fills/rich text render is made explicit
as `RowResult` / `CellOut` values, one `RowResult` per worksheet row
visited by the loop `for r in range(2, max_row + 1)`.
-/

/-- Splitting helper: walk the characters, accumulating the current token
in reverse; whitespace closes the token (empty tokens are dropped). -/
def pySplitChars : List Char → List Char → List String
  | acc, [] => if acc = [] then [] else [String.mk acc.reverse]
  | acc, c :: cs =>
    if c.isWhitespace then
      if acc = [] then pySplitChars [] cs
      else String.mk acc.reverse :: pySplitChars [] cs
    else pySplitChars (c :: acc) cs

/-- Python `str.split()` with no separator: split on runs of whitespace,
dropping empty pieces. -/
def pySplit (s : String) : List String :=
  pySplitChars [] s.data

/-- `to_str` of Compare.py: missing values (NaN/None) are modelled as the
empty string, so only the `str(x).strip()` part remains (strip leading and
trailing whitespace). -/
def to_str (x : String) : String :=
  String.mk ((x.data.dropWhile Char.isWhitespace).reverse.dropWhile Char.isWhitespace).reverse

/-- Python `"".join`: concatenation of a list of strings. -/
def strJoin : List String → String
  | [] => ""
  | s :: ss => s ++ strJoin ss

/-- Python `" ".join`: tokens joined by single separating spaces. -/
def joinTokens : List String → String
  | [] => ""
  | [t] => t
  | t :: t2 :: ts => t ++ " " ++ joinTokens (t2 :: ts)

/-- The current value with each whitespace run collapsed to a single space
and leading/trailing whitespace removed: `" ".join(s.split())`. -/
def collapseWs (s : String) : String :=
  joinTokens (pySplit s)

/-- Characters of the regex class `[a-z0-9]` used by `normalize_colname`. -/
def isLowerAlnum (c : Char) : Bool :=
  (('a' ≤ c) && (c ≤ 'z')) || (('0' ≤ c) && (c ≤ '9'))

/-- `re.sub(r"[^a-z0-9]+", "_", s)`: replace each maximal run of characters
outside `[a-z0-9]` by a single underscore.  The Boolean flag records whether
the previous character was part of such a run. -/
def subNonAlnumAux : Bool → List Char → List Char
  | _, [] => []
  | inRun, c :: cs =>
    if isLowerAlnum c then c :: subNonAlnumAux false cs
    else if inRun then subNonAlnumAux true cs
    else '_' :: subNonAlnumAux true cs

/-- Python `s.strip("_")` on a character list. -/
def stripUnderscore (l : List Char) : List Char :=
  ((l.dropWhile (fun c => c == '_')).reverse.dropWhile (fun c => c == '_')).reverse

/-- `normalize_colname` of Compare.py: collapse whitespace, strip, lowercase,
replace runs of non-alphanumerics by `_`, then strip `_`. -/
def normalize_colname (name : String) : String :=
  let s := String.mk ((joinTokens (pySplit name)).data.map Char.toLower)
  String.mk (stripUnderscore (subNonAlnumAux false s.data))

/-- A table as produced by `read_df` (pandas, `dtype=str`): ordered column
headers and rows of cell strings, missing cells being `""`. -/
structure DataFrame where
  columns : List String
  rows : List (List String)
deriving Repr, DecidableEq

/-- `row.get(header, "")` on a pandas row of a data frame: position of the
header among the frame's columns, default `""`. -/
def DataFrame.rowGet (df : DataFrame) (row : List String) (h : String) : String :=
  match df.columns.findIdx? (fun c => c == h) with
  | some i => row.getD i ""
  | none => ""

/-- The openpyxl worksheet of the second workbook: row-major cell values
(row 1 is the header row); `None` cells are modelled as `""`. -/
structure Worksheet where
  data : List (List String)
deriving Repr, DecidableEq

/-- `ws.cell(row=r, column=c).value` with 1-based indices, `None` as `""`. -/
def Worksheet.cell (ws : Worksheet) (r c : Nat) : String :=
  (ws.data.getD (r - 1) []).getD (c - 1) ""

/-- `ws.max_row`: number of rows of the sheet, header row included. -/
def Worksheet.max_row (ws : Worksheet) : Nat :=
  ws.data.length

/-- Write position `i` of a list, padding with `""` when the list is shorter
(openpyxl creates missing cells on assignment). -/
def setNth (l : List String) (i : Nat) (v : String) : List String :=
  if i < l.length then l.set i v
  else l ++ List.replicate (i - l.length) "" ++ [v]

/-- `ws.cell(row=r, column=c).value = v` (1-based indices). -/
def Worksheet.setCell (ws : Worksheet) (r c : Nat) (v : String) : Worksheet :=
  ⟨ws.data.set (r - 1) (setNth (ws.data.getD (r - 1) []) (c - 1) v)⟩

/-- openpyxl `column_index_from_string` on an uppercase letter string:
base-26 value, A=1. -/
def column_index_from_string (s : String) : Nat :=
  s.data.foldl (fun acc c => acc * 26 + (c.toNat - 'A'.toNat + 1)) 0

/-- `header_from_letter`: the header text of the given column letter in
row 1 (`value or ""`). -/
def header_from_letter (ws : Worksheet) (letter : String) : String :=
  ws.cell 1 (column_index_from_string letter)

/-- `get_headers_for_letters`: map each letter to its row-1 header string. -/
def get_headers_for_letters (ws : Worksheet) (letters : List String) : List (String × String) :=
  letters.map (fun L => (L, ws.cell 1 (column_index_from_string L)))

/-- Lookup in a Python dict modelled as an insertion-ordered association
list: on duplicate keys the last insertion wins. -/
def dictGet {α : Type} (d : List (String × α)) (k : String) : Option α :=
  Option.map Prod.snd (d.reverse.find? (fun p => p.1 == k))

/-- `k in d` for a Python dict modelled as an association list. -/
def dictMem {α : Type} (d : List (String × α)) (k : String) : Bool :=
  d.any (fun p => p.1 == k)

/-- `d[k] = v` on a Python dict modelled as an association list. -/
def dictInsert {α : Type} (d : List (String × α)) (k : String) (v : α) : List (String × α) :=
  d ++ [(k, v)]

/-- The dict comprehension `{normalize_colname(c): c for c in cols}` read at
key `n`: the last column (in column order) whose normalization is `n`. -/
def normLastGet (cols : List String) (n : String) : Option String :=
  cols.reverse.find? (fun c => normalize_colname c == n)

/-- `find_matching_headers_in_q1`: for each (letter, second-workbook header),
pick the same header in the first workbook, exact match first, else
normalized match, else fall back to the header string itself. -/
def find_matching_headers_in_q1 (df_q1 : DataFrame) (q2_headers : List (String × String)) :
    List (String × String) :=
  q2_headers.map (fun p =>
    if p.2 ∈ df_q1.columns then (p.1, p.2)
    else
      match normLastGet df_q1.columns (normalize_colname p.2) with
      | some c => (p.1, c)
      | none => (p.1, p.2))

/-- One iteration of the `build_lookup` loop: index the row under its
trimmed key unless the key is empty. -/
def lookupStep (df : DataFrame) (kh : String) (lookup : List (String × List String))
    (row : List String) : List (String × List String) :=
  let key := to_str (df.rowGet row kh)
  if key ≠ "" then dictInsert lookup key row else lookup

/-- `build_lookup`: index the data frame's rows by trimmed key value;
returns the empty index when the key header is not a column. -/
def build_lookup (df : DataFrame) (key_header : String) : List (String × List String) :=
  if key_header ∈ df.columns then df.rows.foldl (lookupStep df key_header) [] else []

/-- Key-header resolution in the first workbook (lines 142-151): exact
column match first, else lookup through the normalized-name dict. -/
def resolve_key_header_q1 (df_q1 : DataFrame) (kh2 : String) : Option String :=
  if kh2 ∈ df_q1.columns then some kh2
  else normLastGet df_q1.columns (normalize_colname kh2)

/-- `WORD_DIFF_COLUMNS = {"O", "S", "T"}`. -/
def WORD_DIFF_COLUMNS : List String := ["O", "S", "T"]

/-- Loop body of `apply_word_diff`: walk the current-value tokens by
position `i`; a token is kept in default color (`false`) exactly when the
baseline token list has an equal token at the same position, else it is
red (`true`).  Every token but the last is emitted with a trailing space. -/
def wordDiffBlocks (old_tokens : List String) : Nat → List String → List (String × Bool)
  | _, [] => []
  | i, token :: rest =>
    let isRed := !(decide (i < old_tokens.length) && (old_tokens.getD i "" == token))
    let text := match rest with | [] => token | _ :: _ => token ++ " "
    (text, isRed) :: wordDiffBlocks old_tokens (i + 1) rest

/-- `apply_word_diff`: the rich-text blocks (text, isRed) that replace the
cell value, computed positionally from the whitespace-split tokens. -/
def apply_word_diff (old_text new_text : String) : List (String × Bool) :=
  wordDiffBlocks (pySplit old_text) 0 (pySplit new_text)

/-- Per-cell classification outcomes (Unchanged is the implicit
no-highlight case of the code). -/
inductive CellClass
  | Cleared
  | Changed
  | Unchanged
deriving Repr, DecidableEq

/-- Lines 201-206: pink when the baseline has a value and the current cell
is blank; blue when the values differ otherwise; no highlight when equal. -/
def classify_cell (q1_val q2_val : String) : CellClass :=
  if q1_val ≠ "" ∧ q2_val = "" then .Cleared
  else if q2_val ≠ q1_val then .Changed
  else .Unchanged

/-- Classification of one compared cell: its column letter, its class, and
the rich-text word-diff blocks when they were applied. -/
structure CellOut where
  letter : String
  cls : CellClass
  wordDiff : Option (List (String × Bool))
deriving Repr, DecidableEq

/-- Result of one worksheet row of the comparison loop: highlighted as a
new project, compared cell by cell, or left untouched (the loop body fell
through without classifying the row). -/
inductive RowResult
  | newRow
  | cells (cs : List CellOut)
  | untouched
deriving Repr, DecidableEq

/-- The per-column classifications a row received, if any. -/
def perColumn : RowResult → Option (List CellOut)
  | .cells cs => some cs
  | _ => none

/-- Whether a row received any classification (new-project highlight or
per-column comparison). -/
def isClassified : RowResult → Bool
  | .untouched => false
  | _ => true

/-- The in-memory state the row loop reads and writes: the two data frames
and the current-workbook worksheet.  The loop writes only worksheet cell
values (rich-text rewrites); fills carry no cell value. -/
structure ProgState where
  df_q1 : DataFrame
  df_q2 : DataFrame
  ws : Worksheet
deriving Repr, DecidableEq

/-- `to_str(cell2.value)` for the cell of letter `L` at worksheet row `r`. -/
def q2_val_at (st : ProgState) (r : Nat) (L : String) : String :=
  to_str (st.ws.cell r (column_index_from_string L))

/-- `q1_headers_by_letter.get(L, q2_headers_by_letter.get(L, None))`. -/
def q1_header_at (q2_headers q1_headers : List (String × String)) (L : String) : Option String :=
  match dictGet q1_headers L with
  | some v => some v
  | none => dictGet q2_headers L

/-- Lines 197-199: the baseline value of the cell, `""` when the resolved
baseline header is not a column of the first workbook. -/
def q1_val_at (df_q1 : DataFrame) (q1_row : List String) (q1_header : Option String) : String :=
  match q1_header with
  | some h => if h ∈ df_q1.columns then to_str (df_q1.rowGet q1_row h) else ""
  | none => ""

/-- State-passing map: thread a state through a list left to right,
collecting the produced values. -/
def mapState {σ α β : Type} (f : σ → α → σ × β) : σ → List α → σ × List β
  | s, [] => (s, [])
  | s, a :: as =>
    let p := f s a
    let q := mapState f p.1 as
    (q.1, p.2 :: q.2)

/-- Per-cell step of the comparison loop (lines 190-210): classify the cell
of letter `L` at row `r`, and for changed cells of the word-diff columns
with a non-empty current value, rewrite the worksheet cell with the
rich-text blocks. -/
def pcell (q2_headers q1_headers : List (String × String)) (q1_row : List String) (r : Nat)
    (st : ProgState) (L : String) : ProgState × CellOut :=
  let q2_val := q2_val_at st r L
  let q1_val := q1_val_at st.df_q1 q1_row (q1_header_at q2_headers q1_headers L)
  match classify_cell q1_val q2_val with
  | .Cleared => (st, ⟨L, .Cleared, none⟩)
  | .Changed =>
    if L ∈ WORD_DIFF_COLUMNS ∧ q2_val ≠ "" then
      let blocks := apply_word_diff q1_val q2_val
      ({ st with
          ws := st.ws.setCell r (column_index_from_string L)
            (strJoin (blocks.map Prod.fst)) },
        ⟨L, .Changed, some blocks⟩)
    else (st, ⟨L, .Changed, none⟩)
  | .Unchanged => (st, ⟨L, .Unchanged, none⟩)

/-- Per-row step of the comparison loop (lines 173-210): skip worksheet rows
past the data frame, highlight new projects whole-row, compare the target
columns of rows whose key is indexed, and fall through otherwise. -/
def processRow (key_header_q2 : String) (q1_lookup : List (String × List String))
    (target_letters : List String) (q2_headers q1_headers : List (String × String))
    (st : ProgState) (r : Nat) : ProgState × RowResult :=
  let df_idx := r - 2
  if df_idx < st.df_q2.rows.length then
    let key_val := to_str (st.df_q2.rowGet (st.df_q2.rows.getD df_idx []) key_header_q2)
    if key_val ≠ "" ∧ dictMem q1_lookup key_val = false then (st, .newRow)
    else
      match dictGet q1_lookup key_val with
      | some q1_row =>
        let p := mapState (pcell q2_headers q1_headers q1_row r) st target_letters
        (p.1, .cells p.2)
      | none => (st, .untouched)
  else (st, .untouched)

/-- The two exception kinds `highlight_q2_changes` raises before the row
loop: `ValueError` for an empty letter tuple (the spec's
ConfigurationError), `RuntimeError` for an unresolvable key header (the
spec's LookupError). -/
inductive CompareError
  | valueError
  | runtimeError
deriving Repr, DecidableEq

/-- `range(2, max_row + 1)`: the worksheet row numbers visited by the loop. -/
def rowNumbers (n : Nat) : List Nat :=
  (List.range n).map (fun i => i + 2)

/-- `highlight_q2_changes` of Compare.py over already-loaded tables: check
the letter list, read and resolve the key header of column B, index the
baseline rows, resolve the target headers, then run the row loop.  Returns
the final state together with one `RowResult` per visited worksheet row. -/
def highlight_q2_changes (st : ProgState) (target_letters : List String) :
    Except CompareError (ProgState × List RowResult) :=
  if target_letters = [] then .error .valueError
  else
    let key_header_q2 := header_from_letter st.ws "B"
    if key_header_q2 = "" then .error .runtimeError
    else
      match resolve_key_header_q1 st.df_q1 key_header_q2 with
      | none => .error .runtimeError
      | some key_header_q1 =>
        let q1_lookup := build_lookup st.df_q1 key_header_q1
        let q2_headers := get_headers_for_letters st.ws target_letters
        let q1_headers := find_matching_headers_in_q1 st.df_q1 q2_headers
        .ok (mapState
          (processRow key_header_q2 q1_lookup target_letters q2_headers q1_headers)
          st (rowNumbers (st.ws.max_row - 1)))

/-- The trimmed key of data-frame row `i` of the current table, read through
the column-B header (line 178). -/
def keyOfRow (st : ProgState) (i : Nat) : String :=
  to_str (st.df_q2.rowGet (st.df_q2.rows.getD i []) (header_from_letter st.ws "B"))

/-- Whether the comparison ran to completion without raising. -/
def isOkB {α : Type} : Except CompareError α → Bool
  | .ok _ => true
  | .error _ => false

/-- The row classifications of a successful run, dropping the state. -/
def runResults (st : ProgState) (target_letters : List String) : Option (List RowResult) :=
  Option.map Prod.snd (highlight_q2_changes st target_letters).toOption

theorem mapState_length {σ α β : Type} (f : σ → α → σ × β) :
    ∀ (l : List α) (s : σ), ((mapState f s l).2).length = l.length := by
  intro l
  induction l with
  | nil => intro s; rfl
  | cons a as ih => intro s; simp [mapState, ih]

theorem mapState_inv {σ α β : Type} (f : σ → α → σ × β) (P : σ → Prop)
    (hf : ∀ s a, P s → P (f s a).1) :
    ∀ (l : List α) (s : σ), P s → P (mapState f s l).1 := by
  intro l
  induction l with
  | nil => intro s hs; exact hs
  | cons a as ih =>
    intro s hs
    simpa [mapState] using ih (f s a).1 (hf s a hs)

theorem mapState_getD_inv {σ α β : Type} (f : σ → α → σ × β) (P : σ → Prop)
    (hf : ∀ s a, P s → P (f s a).1) (d : β) (da : α) :
    ∀ (l : List α) (s : σ), P s → ∀ i, i < l.length →
      ∃ s', P s' ∧ ((mapState f s l).2.getD i d = (f s' (l.getD i da)).2) := by
  intro l
  induction l with
  | nil => intro s _ i hi; exact absurd hi (by simp)
  | cons a as ih =>
    intro s hs i hi
    cases i with
    | zero => exact ⟨s, hs, by simp [mapState]⟩
    | succ j =>
      obtain ⟨s', hs', heq⟩ := ih (f s a).1 (hf s a hs) j (by simpa using hi)
      exact ⟨s', hs', by simpa [mapState] using heq⟩

theorem pcell_preserves (q2h q1h : List (String × String)) (q1_row : List String) (r : Nat)
    (st : ProgState) (L : String) :
    ((pcell q2h q1h q1_row r st L).1).df_q1 = st.df_q1 ∧
    ((pcell q2h q1h q1_row r st L).1).df_q2 = st.df_q2 := by
  unfold pcell
  dsimp only
  split
  · exact ⟨rfl, rfl⟩
  · split
    · exact ⟨rfl, rfl⟩
    · exact ⟨rfl, rfl⟩
  · exact ⟨rfl, rfl⟩

theorem pcell_letter (q2h q1h : List (String × String)) (q1_row : List String) (r : Nat)
    (st : ProgState) (L : String) :
    ((pcell q2h q1h q1_row r st L).2).letter = L := by
  unfold pcell
  dsimp only
  split
  · rfl
  · split
    · rfl
    · rfl
  · rfl

theorem pcell_cls (q2h q1h : List (String × String)) (q1_row : List String) (r : Nat)
    (st : ProgState) (L : String) :
    ((pcell q2h q1h q1_row r st L).2).cls
      = classify_cell (q1_val_at st.df_q1 q1_row (q1_header_at q2h q1h L)) (q2_val_at st r L) := by
  unfold pcell
  dsimp only
  split
  next heq => rw [heq]
  next heq => split <;> rw [heq]
  next heq => rw [heq]

theorem mapState_pcell_letters (q2h q1h : List (String × String)) (q1_row : List String)
    (r : Nat) :
    ∀ (letters : List String) (s : ProgState),
      ((mapState (pcell q2h q1h q1_row r) s letters).2).map CellOut.letter = letters := by
  intro letters
  induction letters with
  | nil => intro s; rfl
  | cons L Ls ih =>
    intro s
    simp [mapState, ih, pcell_letter]

theorem foldl_lookupStep_eq (df : DataFrame) (kh : String) :
    ∀ (rows : List (List String)) (acc : List (String × List String)),
      rows.foldl (lookupStep df kh) acc
        = acc ++ (rows.filter (fun row => to_str (df.rowGet row kh) != "")).map
            (fun row => (to_str (df.rowGet row kh), row)) := by
  intro rows
  induction rows with
  | nil => intro acc; simp
  | cons row rest ih =>
    intro acc
    by_cases h : to_str (df.rowGet row kh) = ""
    · simp [lookupStep, h, ih]
    · have hb : (to_str (df.rowGet row kh) != "") = true := by simpa using h
      simp only [List.foldl_cons, lookupStep, dictInsert, List.filter_cons, hb, if_pos h,
        ne_eq, h, not_false_eq_true, ite_true, List.map_cons]
      rw [ih]
      simp

theorem build_lookup_key_ne_empty (df : DataFrame) (kh : String) :
    ∀ p ∈ build_lookup df kh, p.1 ≠ "" := by
  intro p hp
  unfold build_lookup at hp
  split at hp
  · rw [foldl_lookupStep_eq] at hp
    simp only [List.nil_append, List.mem_map, List.mem_filter, bne_iff_ne, ne_eq] at hp
    obtain ⟨row, ⟨_, hne⟩, heq⟩ := hp
    rw [← heq]
    simpa using hne
  · simp at hp

theorem dictGet_empty_key {α : Type} (d : List (String × α))
    (h : ∀ p ∈ d, p.1 ≠ "") : dictGet d "" = none := by
  unfold dictGet
  rw [List.find?_eq_none.mpr]
  · rfl
  · intro x hx
    simp only [beq_iff_eq]
    exact h x (List.mem_reverse.mp hx)

theorem dictMem_iff_isSome {α : Type} (d : List (String × α)) (k : String) :
    dictMem d k = true ↔ (dictGet d k).isSome = true := by
  unfold dictMem dictGet
  rw [List.any_eq_true, Option.isSome_map', List.find?_isSome]
  constructor
  · rintro ⟨x, hx, hpx⟩
    exact ⟨x, List.mem_reverse.mpr hx, hpx⟩
  · rintro ⟨x, hx, hpx⟩
    exact ⟨x, List.mem_reverse.mp hx, hpx⟩

theorem find?_filter_of_imp {α : Type} (p q : α → Bool)
    (himp : ∀ x, q x = true → p x = true) :
    ∀ l : List α, (l.filter p).find? q = l.find? q := by
  intro l
  induction l with
  | nil => rfl
  | cons x xs ih =>
    by_cases hp : p x = true
    · rw [List.filter_cons_of_pos hp]
      by_cases hq : q x = true
      · rw [List.find?_cons_of_pos _ hq, List.find?_cons_of_pos _ hq]
      · rw [List.find?_cons_of_neg _ hq, List.find?_cons_of_neg _ hq, ih]
    · have hq : ¬ q x = true := fun hqq => hp (himp x hqq)
      rw [List.filter_cons_of_neg (by simpa using hp), ih,
        List.find?_cons_of_neg _ hq]

theorem dictGet_build_lookup (df : DataFrame) (kh k : String) (hk : k ≠ "") :
    dictGet (build_lookup df kh) k
      = if kh ∈ df.columns then
          df.rows.reverse.find? (fun row => to_str (df.rowGet row kh) == k)
        else none := by
  unfold build_lookup
  split
  · rw [foldl_lookupStep_eq]
    unfold dictGet
    rw [List.nil_append, ← List.map_reverse, List.find?_map, ← List.filter_reverse,
      find?_filter_of_imp _ _
        (by
          intro row hrow
          simp only [Function.comp_apply, beq_iff_eq] at hrow
          simpa [hrow] using hk),
      Option.map_map]
    have hcomp : (Prod.snd ∘ fun row => (to_str (df.rowGet row kh), row))
        = fun row : List String => row := rfl
    rw [hcomp, Option.map_id']
    rfl
  · rfl

theorem rowNumbers_length (n : Nat) : (rowNumbers n).length = n := by
  simp [rowNumbers]

theorem rowNumbers_getD (n i : Nat) (h : i < n) : (rowNumbers n).getD i 0 = i + 2 := by
  simp [rowNumbers, List.getD_eq_getElem?_getD, List.getElem?_map, List.getElem?_range h]

theorem highlight_ok_elim (st : ProgState) (letters : List String) (st' : ProgState)
    (results : List RowResult)
    (hrun : highlight_q2_changes st letters = .ok (st', results)) :
    ∃ kh1, resolve_key_header_q1 st.df_q1 (header_from_letter st.ws "B") = some kh1 ∧
      (st', results) = mapState
        (processRow (header_from_letter st.ws "B") (build_lookup st.df_q1 kh1) letters
          (get_headers_for_letters st.ws letters)
          (find_matching_headers_in_q1 st.df_q1 (get_headers_for_letters st.ws letters)))
        st (rowNumbers (st.ws.max_row - 1)) := by
  unfold highlight_q2_changes at hrun
  split at hrun
  · exact Except.noConfusion hrun
  · dsimp only at hrun
    split at hrun
    · exact Except.noConfusion hrun
    · split at hrun
      · exact Except.noConfusion hrun
      next kh1 hres =>
        refine ⟨kh1, hres, ?_⟩
        injection hrun with h
        exact h.symm

theorem processRow_preserves (kh : String) (lk : List (String × List String))
    (letters : List String) (q2h q1h : List (String × String)) (s : ProgState) (r : Nat) :
    ((processRow kh lk letters q2h q1h s r).1).df_q1 = s.df_q1 ∧
    ((processRow kh lk letters q2h q1h s r).1).df_q2 = s.df_q2 := by
  unfold processRow
  dsimp only
  split
  · split
    · exact ⟨rfl, rfl⟩
    · split
      · refine mapState_inv (pcell q2h q1h _ r)
          (fun s' => s'.df_q1 = s.df_q1 ∧ s'.df_q2 = s.df_q2) ?_ letters s ⟨rfl, rfl⟩
        intro s' L hs'
        obtain ⟨h1, h2⟩ := pcell_preserves q2h q1h _ r s' L
        exact ⟨h1.trans hs'.1, h2.trans hs'.2⟩
      · exact ⟨rfl, rfl⟩
  · exact ⟨rfl, rfl⟩

theorem processRow_snd_newRow_iff (kh : String) (lk : List (String × List String))
    (letters : List String) (q2h q1h : List (String × String)) (s : ProgState) (r : Nat) :
    ((processRow kh lk letters q2h q1h s r).2 = .newRow ↔
      (r - 2 < s.df_q2.rows.length ∧
        to_str (s.df_q2.rowGet (s.df_q2.rows.getD (r - 2) []) kh) ≠ "" ∧
        dictMem lk (to_str (s.df_q2.rowGet (s.df_q2.rows.getD (r - 2) []) kh)) = false)) := by
  unfold processRow
  dsimp only
  split
  next hin =>
    split
    next hcond =>
      constructor
      · intro _; exact ⟨hin, hcond.1, hcond.2⟩
      · intro _; rfl
    next hcond =>
      split
      · constructor
        · intro h; exact RowResult.noConfusion h
        · rintro ⟨_, h2, h3⟩; exact absurd ⟨h2, h3⟩ hcond
      · constructor
        · intro h; exact RowResult.noConfusion h
        · rintro ⟨_, h2, h3⟩; exact absurd ⟨h2, h3⟩ hcond
  next hin =>
    constructor
    · intro h; exact RowResult.noConfusion h
    · rintro ⟨h1, _, _⟩; exact absurd h1 hin

theorem processRow_partition (kh : String) (lk : List (String × List String))
    (letters : List String) (q2h q1h : List (String × String)) (s : ProgState) (r : Nat)
    (hr : r - 2 < s.df_q2.rows.length)
    (hkeys : ∀ p ∈ lk, p.1 ≠ "") :
    (to_str (s.df_q2.rowGet (s.df_q2.rows.getD (r - 2) []) kh) ≠ "" →
      dictMem lk (to_str (s.df_q2.rowGet (s.df_q2.rows.getD (r - 2) []) kh)) = false →
      (processRow kh lk letters q2h q1h s r).2 = .newRow) ∧
    (to_str (s.df_q2.rowGet (s.df_q2.rows.getD (r - 2) []) kh) ≠ "" →
      dictMem lk (to_str (s.df_q2.rowGet (s.df_q2.rows.getD (r - 2) []) kh)) = true →
      Option.map (List.map CellOut.letter)
        (perColumn (processRow kh lk letters q2h q1h s r).2) = some letters) ∧
    (to_str (s.df_q2.rowGet (s.df_q2.rows.getD (r - 2) []) kh) = "" →
      (processRow kh lk letters q2h q1h s r).2 = .untouched) := by
  refine ⟨?_, ?_, ?_⟩
  · intro h1 h2
    exact (processRow_snd_newRow_iff kh lk letters q2h q1h s r).mpr ⟨hr, h1, h2⟩
  · intro h1 h2
    unfold processRow
    dsimp only
    rw [if_pos hr]
    rw [if_neg (by rintro ⟨_, hfalse⟩; rw [h2] at hfalse; exact Bool.noConfusion hfalse)]
    have hsome := (dictMem_iff_isSome lk _).mp h2
    cases hget : dictGet lk (to_str (s.df_q2.rowGet (s.df_q2.rows.getD (r - 2) []) kh)) with
    | none => rw [hget] at hsome; exact Bool.noConfusion hsome
    | some q1_row =>
      dsimp only [perColumn]
      rw [Option.map_some']
      rw [mapState_pcell_letters]
  · intro h0
    unfold processRow
    dsimp only
    rw [if_pos hr]
    rw [if_neg (by rintro ⟨hfalse, _⟩; exact hfalse h0)]
    rw [h0, dictGet_empty_key lk hkeys]

theorem wordDiffBlocks_length (old : List String) :
    ∀ (toks : List String) (i : Nat), (wordDiffBlocks old i toks).length = toks.length := by
  intro toks
  induction toks with
  | nil => intro i; rfl
  | cons t rest ih => intro i; simp [wordDiffBlocks, ih]

theorem wordDiffBlocks_getD (old : List String) :
    ∀ (toks : List String) (i j : Nat), j < toks.length →
      (wordDiffBlocks old i toks).getD j ("", true)
        = (toks.getD j "" ++ (if j + 1 < toks.length then " " else ""),
           !(decide (i + j < old.length) && (old.getD (i + j) "" == toks.getD j ""))) := by
  intro toks
  induction toks with
  | nil => intro i j hj; exact absurd hj (by simp)
  | cons t rest ih =>
    intro i j hj
    cases j with
    | zero =>
      cases rest with
      | nil => simp [wordDiffBlocks]
      | cons t2 ts => simp [wordDiffBlocks]
    | succ j' =>
      have hrec := ih (i + 1) j' (by simpa using hj)
      have harith : i + 1 + j' = i + (j' + 1) := by omega
      simp only [wordDiffBlocks, List.getD_cons_succ, hrec, harith, List.getD_cons_succ,
        List.length_cons]
      simp [Nat.add_lt_add_iff_right]

theorem wordDiffBlocks_single (old : List String) (i : Nat) (t : String) :
    wordDiffBlocks old i [t]
      = [(t, !(decide (i < old.length) && (old.getD i "" == t)))] := rfl

theorem wordDiffBlocks_cons_cons (old : List String) (i : Nat) (t t2 : String)
    (ts : List String) :
    wordDiffBlocks old i (t :: t2 :: ts)
      = (t ++ " ", !(decide (i < old.length) && (old.getD i "" == t)))
        :: wordDiffBlocks old (i + 1) (t2 :: ts) := rfl

theorem strJoin_wordDiffBlocks (old : List String) :
    ∀ (toks : List String) (i : Nat),
      strJoin ((wordDiffBlocks old i toks).map Prod.fst) = joinTokens toks := by
  intro toks
  induction toks with
  | nil => intro i; rfl
  | cons t rest ih =>
    intro i
    cases rest with
    | nil => simp [wordDiffBlocks, strJoin, joinTokens]
    | cons t2 ts =>
      rw [wordDiffBlocks_cons_cons, List.map_cons]
      show (t ++ " ") ++ strJoin ((wordDiffBlocks old (i + 1) (t2 :: ts)).map Prod.fst)
        = joinTokens (t :: t2 :: ts)
      rw [ih]
      rfl

theorem find?_eq_self_of_mem (L : String) :
    ∀ (l : List String), L ∈ l → l.find? (fun x => x == L) = some L := by
  intro l
  induction l with
  | nil => intro hl; exact absurd hl (by simp)
  | cons x xs ih =>
    intro hl
    by_cases hx : x = L
    · rw [List.find?_cons_of_pos _ (by simp [hx])]
      rw [hx]
    · rw [List.find?_cons_of_neg _ (by simp [hx])]
      rcases List.mem_cons.mp hl with heq | hmem
      · exact absurd heq.symm hx
      · exact ih hmem

theorem dictGet_map_keyed (F : String → String × String) (hF : ∀ x, (F x).1 = x) (L : String) :
    ∀ (letters : List String), L ∈ letters →
      dictGet (letters.map F) L = some (F L).2 := by
  intro letters hL
  unfold dictGet
  rw [← List.map_reverse, List.find?_map]
  have hpred : ((fun p : String × String => p.1 == L) ∘ F) = fun x => x == L := by
    funext x
    simp [Function.comp, hF x]
  rw [hpred, find?_eq_self_of_mem L _ (List.mem_reverse.mpr hL)]
  rfl

/-- C1: for a matched (row, column) pair with trimmed values, the cell
classification is Cleared iff the baseline value is non-empty and the
current value is empty, Unchanged iff the values are equal, and Changed iff
they differ and the Cleared case does not hold (Cleared takes precedence);
the three outcomes are mutually exclusive and exhaustive, and the class the
per-cell loop step records is exactly this classification of the values it
extracts. -/
theorem C1_cell_classification (q1_val q2_val : String)
    (q2h q1h : List (String × String)) (q1_row : List String) (r : Nat)
    (st : ProgState) (L : String) :
    (classify_cell q1_val q2_val = .Cleared ↔ (q1_val ≠ "" ∧ q2_val = "")) ∧
    (classify_cell q1_val q2_val = .Unchanged ↔ q2_val = q1_val) ∧
    (classify_cell q1_val q2_val = .Changed ↔
      (q2_val ≠ q1_val ∧ ¬(q1_val ≠ "" ∧ q2_val = ""))) ∧
    ((pcell q2h q1h q1_row r st L).2).cls
      = classify_cell (q1_val_at st.df_q1 q1_row (q1_header_at q2h q1h L))
          (q2_val_at st r L) := by
  refine ⟨?_, ?_, ?_, pcell_cls q2h q1h q1_row r st L⟩
  · unfold classify_cell
    split_ifs with h1 h2 <;> simp_all
  · unfold classify_cell
    split_ifs with h1 h2 <;> simp_all [eq_comm]
  · unfold classify_cell
    split_ifs with h1 h2 <;> simp_all

/-- C5: when the list of column letters to compare is empty, the comparator
fails at once with ValueError (the spec's ConfigurationError): the whole run
is the error outcome, so no row is processed and no output is produced. -/
theorem C5_empty_letters_error (st : ProgState) :
    highlight_q2_changes st [] = .error .valueError := rfl

/-- C10: concatenating the word-diff block texts in order yields the current
value with every whitespace run collapsed to one space and leading/trailing
whitespace removed — the tokens joined by single separating spaces with no
trailing space — which is what the rewritten cell holds in place of the
original whitespace. -/
theorem C10_rewritten_text (old_text new_text : String) :
    strJoin ((apply_word_diff old_text new_text).map Prod.fst) = collapseWs new_text := by
  unfold apply_word_diff collapseWs
  exact strJoin_wordDiffBlocks (pySplit old_text) (pySplit new_text) 0

/-- C7: the baseline index never contains the empty key (rows with an empty
trimmed key are skipped), and for a non-empty key it returns the last row in
table order whose trimmed key value equals that key (overwrite semantics on
duplicates); when the key header is not a column the index is empty. -/
theorem C7_baseline_index (df : DataFrame) (kh k : String) (hk : k ≠ "") :
    dictMem (build_lookup df kh) "" = false ∧
    dictGet (build_lookup df kh) k
      = (if kh ∈ df.columns then
          df.rows.reverse.find? (fun row => to_str (df.rowGet row kh) == k)
        else none) := by
  constructor
  · unfold dictMem
    rw [List.any_eq_false]
    intro p hp
    simp only [beq_iff_eq]
    exact build_lookup_key_ne_empty df kh p hp
  · exact dictGet_build_lookup df kh k hk

/-- Witness for C7 at a concrete frame with a duplicate key: the index skips
the empty-key row and returns the last of the two rows keyed "1". -/
theorem C7_baseline_index_witness :
    dictMem (build_lookup ⟨["ID", "V"], [["1", "a"], ["", "x"], ["1", "b"]]⟩ "ID") "" = false ∧
    dictGet (build_lookup ⟨["ID", "V"], [["1", "a"], ["", "x"], ["1", "b"]]⟩ "ID") "1"
      = (if "ID" ∈ (⟨["ID", "V"], [["1", "a"], ["", "x"], ["1", "b"]]⟩ : DataFrame).columns then
          (⟨["ID", "V"], [["1", "a"], ["", "x"], ["1", "b"]]⟩ : DataFrame).rows.reverse.find?
            (fun row =>
              to_str ((⟨["ID", "V"], [["1", "a"], ["", "x"], ["1", "b"]]⟩ : DataFrame).rowGet
                row "ID") == "1")
        else none) :=
  C7_baseline_index ⟨["ID", "V"], [["1", "a"], ["", "x"], ["1", "b"]]⟩ "ID" "1" (by decide)

/-- C4: the per-cell step attaches a word-diff annotation exactly when the
classification is Changed, the letter is one of the word-diff columns, and
the current value is non-empty; the attached annotation is
`apply_word_diff` of the baseline and current values; the annotation has
exactly one block per whitespace token of the current value; block `i` is
marked unchanged (not red) iff `i` is within range of the baseline token
list and the current token equals the baseline token at position `i`
(positional, not alignment-based); and block `i` carries token `i`'s text,
with a single trailing space on every block but the last. -/
theorem C4_word_diff_annotation (q2h q1h : List (String × String)) (q1_row : List String)
    (r : Nat) (st : ProgState) (L : String) (i : Nat) :
    (((pcell q2h q1h q1_row r st L).2).wordDiff ≠ none ↔
      (((pcell q2h q1h q1_row r st L).2).cls = .Changed ∧ L ∈ WORD_DIFF_COLUMNS ∧
        q2_val_at st r L ≠ "")) ∧
    (((pcell q2h q1h q1_row r st L).2).wordDiff ≠ none →
      ((pcell q2h q1h q1_row r st L).2).wordDiff
        = some (apply_word_diff (q1_val_at st.df_q1 q1_row (q1_header_at q2h q1h L))
            (q2_val_at st r L))) ∧
    ((apply_word_diff (q1_val_at st.df_q1 q1_row (q1_header_at q2h q1h L))
        (q2_val_at st r L)).length = (pySplit (q2_val_at st r L)).length) ∧
    (i < (pySplit (q2_val_at st r L)).length →
      (((apply_word_diff (q1_val_at st.df_q1 q1_row (q1_header_at q2h q1h L))
          (q2_val_at st r L)).getD i ("", true)).2 = false ↔
        (i < (pySplit (q1_val_at st.df_q1 q1_row (q1_header_at q2h q1h L))).length ∧
          (pySplit (q2_val_at st r L)).getD i ""
            = (pySplit (q1_val_at st.df_q1 q1_row (q1_header_at q2h q1h L))).getD i ""))) ∧
    (i < (pySplit (q2_val_at st r L)).length →
      (((apply_word_diff (q1_val_at st.df_q1 q1_row (q1_header_at q2h q1h L))
          (q2_val_at st r L)).getD i ("", true)).1
        = (pySplit (q2_val_at st r L)).getD i ""
            ++ (if i + 1 < (pySplit (q2_val_at st r L)).length then " " else ""))) := by
  refine ⟨?_, ?_, ?_, ?_, ?_⟩
  · unfold pcell
    dsimp only
    split
    next heq => simp [heq]
    next heq =>
      split
      next hcond => simp [hcond]
      next hcond => simp [hcond]
    next heq => simp [heq]
  · unfold pcell
    dsimp only
    split
    next heq => intro h; exact absurd rfl h
    next heq =>
      split
      next hcond => intro _; rfl
      next hcond => intro h; exact absurd rfl h
    next heq => intro h; exact absurd rfl h
  · unfold apply_word_diff
    exact wordDiffBlocks_length _ _ 0
  · intro hi
    unfold apply_word_diff
    rw [wordDiffBlocks_getD _ _ 0 i hi]
    simp only [Nat.zero_add, Bool.not_eq_false', Bool.and_eq_true, decide_eq_true_eq,
      beq_iff_eq]
    constructor
    · rintro ⟨h1, h2⟩; exact ⟨h1, h2.symm⟩
    · rintro ⟨h1, h2⟩; exact ⟨h1, h2.symm⟩
  · intro hi
    unfold apply_word_diff
    rw [wordDiffBlocks_getD _ _ 0 i hi]

/-- Concrete inputs of the C4 witness: a changed word-diff column O cell,
baseline value "Alpha Beta", current value "Alpha Gamma". -/
def c4wSt : ProgState :=
  ⟨⟨["Val"], [["Alpha Beta"]]⟩, ⟨[], []⟩,
    ⟨[[], ["", "", "", "", "", "", "", "", "", "", "", "", "", "", "Alpha Gamma"]]⟩⟩

/-- Letter-to-header maps of the C4 witness. -/
def c4wQ2h : List (String × String) := [("O", "Val")]

/-- Resolved baseline headers of the C4 witness. -/
def c4wQ1h : List (String × String) := [("O", "Val")]

/-- Baseline row of the C4 witness. -/
def c4wRow : List String := ["Alpha Beta"]

/-- Witness for C4 at a concrete changed cell of column O, checked at token
position 0. -/
theorem C4_word_diff_annotation_witness :

    (((pcell c4wQ2h c4wQ1h c4wRow 2 c4wSt "O").2).wordDiff ≠ none ↔
      (((pcell c4wQ2h c4wQ1h c4wRow 2 c4wSt "O").2).cls = .Changed ∧ "O" ∈ WORD_DIFF_COLUMNS ∧
        q2_val_at c4wSt 2 "O" ≠ "")) ∧
    (((pcell c4wQ2h c4wQ1h c4wRow 2 c4wSt "O").2).wordDiff ≠ none →
      ((pcell c4wQ2h c4wQ1h c4wRow 2 c4wSt "O").2).wordDiff
        = some (apply_word_diff (q1_val_at c4wSt.df_q1 c4wRow (q1_header_at c4wQ2h c4wQ1h "O"))
            (q2_val_at c4wSt 2 "O"))) ∧
    ((apply_word_diff (q1_val_at c4wSt.df_q1 c4wRow (q1_header_at c4wQ2h c4wQ1h "O"))
        (q2_val_at c4wSt 2 "O")).length = (pySplit (q2_val_at c4wSt 2 "O")).length) ∧
    (0 < (pySplit (q2_val_at c4wSt 2 "O")).length →
      (((apply_word_diff (q1_val_at c4wSt.df_q1 c4wRow (q1_header_at c4wQ2h c4wQ1h "O"))
          (q2_val_at c4wSt 2 "O")).getD 0 ("", true)).2 = false ↔
        (0 < (pySplit (q1_val_at c4wSt.df_q1 c4wRow (q1_header_at c4wQ2h c4wQ1h "O"))).length ∧
          (pySplit (q2_val_at c4wSt 2 "O")).getD 0 ""
            = (pySplit (q1_val_at c4wSt.df_q1 c4wRow (q1_header_at c4wQ2h c4wQ1h "O"))).getD 0 ""))) ∧
    (0 < (pySplit (q2_val_at c4wSt 2 "O")).length →
      (((apply_word_diff (q1_val_at c4wSt.df_q1 c4wRow (q1_header_at c4wQ2h c4wQ1h "O"))
          (q2_val_at c4wSt 2 "O")).getD 0 ("", true)).1
        = (pySplit (q2_val_at c4wSt 2 "O")).getD 0 ""
            ++ (if 0 + 1 < (pySplit (q2_val_at c4wSt 2 "O")).length then " " else ""))) :=
  C4_word_diff_annotation c4wQ2h c4wQ1h c4wRow 2 c4wSt "O" 0

/-- C9: the comparison has no effect on the two loaded tables: after a
successful run, the baseline and current data frames of the final state are
exactly the initial ones, so every cell value of both input tables is
unchanged.  (The loop's only writes go to the worksheet being styled, which
is the renderer's output artifact.) -/
theorem C9_inputs_unchanged (st st' : ProgState) (letters : List String)
    (results : List RowResult)
    (hrun : highlight_q2_changes st letters = .ok (st', results)) :
    st'.df_q1 = st.df_q1 ∧ st'.df_q2 = st.df_q2 := by
  obtain ⟨kh1, _, heq⟩ := highlight_ok_elim st letters st' results hrun
  have hfst : st' = (mapState
      (processRow (header_from_letter st.ws "B") (build_lookup st.df_q1 kh1) letters
        (get_headers_for_letters st.ws letters)
        (find_matching_headers_in_q1 st.df_q1 (get_headers_for_letters st.ws letters)))
      st (rowNumbers (st.ws.max_row - 1))).1 := congrArg Prod.fst heq
  have hP := mapState_inv
    (processRow (header_from_letter st.ws "B") (build_lookup st.df_q1 kh1) letters
      (get_headers_for_letters st.ws letters)
      (find_matching_headers_in_q1 st.df_q1 (get_headers_for_letters st.ws letters)))
    (fun s2 => s2.df_q1 = st.df_q1 ∧ s2.df_q2 = st.df_q2)
    (fun s2 rr hs2 => by
      obtain ⟨h1, h2⟩ := processRow_preserves (header_from_letter st.ws "B")
        (build_lookup st.df_q1 kh1) letters
        (get_headers_for_letters st.ws letters)
        (find_matching_headers_in_q1 st.df_q1 (get_headers_for_letters st.ws letters)) s2 rr
      exact ⟨h1.trans hs2.1, h2.trans hs2.2⟩)
    (rowNumbers (st.ws.max_row - 1)) st ⟨rfl, rfl⟩
  rw [hfst]
  exact hP

/-- Witness for C9: a concrete successful run (one matched row, one compared
column with equal values) leaves the two data frames unchanged. -/
theorem C9_inputs_unchanged_witness :
    (⟨⟨["x", "ID"], [["x", "1001"]]⟩, ⟨["x", "ID"], [["x", "1001"]]⟩,
        ⟨[["x", "ID"], ["x", "1001"]]⟩⟩ : ProgState).df_q1
      = (⟨⟨["x", "ID"], [["x", "1001"]]⟩, ⟨["x", "ID"], [["x", "1001"]]⟩,
          ⟨[["x", "ID"], ["x", "1001"]]⟩⟩ : ProgState).df_q1 ∧
    (⟨⟨["x", "ID"], [["x", "1001"]]⟩, ⟨["x", "ID"], [["x", "1001"]]⟩,
        ⟨[["x", "ID"], ["x", "1001"]]⟩⟩ : ProgState).df_q2
      = (⟨⟨["x", "ID"], [["x", "1001"]]⟩, ⟨["x", "ID"], [["x", "1001"]]⟩,
          ⟨[["x", "ID"], ["x", "1001"]]⟩⟩ : ProgState).df_q2 :=
  C9_inputs_unchanged
    ⟨⟨["x", "ID"], [["x", "1001"]]⟩, ⟨["x", "ID"], [["x", "1001"]]⟩,
      ⟨[["x", "ID"], ["x", "1001"]]⟩⟩
    ⟨⟨["x", "ID"], [["x", "1001"]]⟩, ⟨["x", "ID"], [["x", "1001"]]⟩,
      ⟨[["x", "ID"], ["x", "1001"]]⟩⟩
    ["A"]
    [RowResult.cells [⟨"A", CellClass.Unchanged, none⟩]]
    (by rfl)

/-- C2: a row of the current table (a worksheet row backed by data-frame row
`i`) is classified NewRow iff its trimmed key is non-empty and absent from
the baseline index; a NewRow row carries no per-column classification. -/
theorem C2_new_row (st st' : ProgState) (letters : List String) (results : List RowResult)
    (kh1 : String) (i : Nat)
    (hrun : highlight_q2_changes st letters = .ok (st', results))
    (hk : resolve_key_header_q1 st.df_q1 (header_from_letter st.ws "B") = some kh1)
    (hi : i < results.length)
    (hrow : i < st.df_q2.rows.length) :
    (results.getD i .untouched = .newRow ↔
      (keyOfRow st i ≠ "" ∧
        dictMem (build_lookup st.df_q1 kh1) (keyOfRow st i) = false)) ∧
    (results.getD i .untouched = .newRow → perColumn (results.getD i .untouched) = none) := by
  obtain ⟨kh1', hk', heq⟩ := highlight_ok_elim st letters st' results hrun
  rw [hk'] at hk
  injection hk with hkh
  subst hkh
  have hres : results = (mapState
      (processRow (header_from_letter st.ws "B") (build_lookup st.df_q1 kh1') letters
        (get_headers_for_letters st.ws letters)
        (find_matching_headers_in_q1 st.df_q1 (get_headers_for_letters st.ws letters)))
      st (rowNumbers (st.ws.max_row - 1))).2 := congrArg Prod.snd heq
  have hlen2 : i < (rowNumbers (st.ws.max_row - 1)).length := by
    rw [hres, mapState_length] at hi
    exact hi
  obtain ⟨s', hs', hgetD⟩ := mapState_getD_inv
    (processRow (header_from_letter st.ws "B") (build_lookup st.df_q1 kh1') letters
      (get_headers_for_letters st.ws letters)
      (find_matching_headers_in_q1 st.df_q1 (get_headers_for_letters st.ws letters)))
    (fun s2 => s2.df_q1 = st.df_q1 ∧ s2.df_q2 = st.df_q2)
    (fun s2 rr hs2 => by
      obtain ⟨h1, h2⟩ := processRow_preserves (header_from_letter st.ws "B")
        (build_lookup st.df_q1 kh1') letters
        (get_headers_for_letters st.ws letters)
        (find_matching_headers_in_q1 st.df_q1 (get_headers_for_letters st.ws letters)) s2 rr
      exact ⟨h1.trans hs2.1, h2.trans hs2.2⟩)
    .untouched 0
    (rowNumbers (st.ws.max_row - 1)) st ⟨rfl, rfl⟩ i hlen2
  rw [rowNumbers_getD _ i (by rwa [rowNumbers_length] at hlen2)] at hgetD
  have hiff := processRow_snd_newRow_iff (header_from_letter st.ws "B")
    (build_lookup st.df_q1 kh1') letters
    (get_headers_for_letters st.ws letters)
    (find_matching_headers_in_q1 st.df_q1 (get_headers_for_letters st.ws letters)) s' (i + 2)
  rw [hs'.2, Nat.add_sub_cancel] at hiff
  constructor
  · rw [hres, hgetD, hiff]
    unfold keyOfRow
    constructor
    · rintro ⟨_, h2, h3⟩
      exact ⟨h2, h3⟩
    · rintro ⟨h2, h3⟩
      exact ⟨hrow, h2, h3⟩
  · intro h
    rw [h]
    rfl

/-- Concrete state of the C2 witness: current row keyed "2002", absent from
the baseline (which holds only key "1001"). -/
def c2wSt : ProgState :=
  ⟨⟨["X", "ID", "V"], [["y", "1001", "w"]]⟩, ⟨["X", "ID", "V"], [["x", "2002", "v"]]⟩,
    ⟨[["X", "ID", "V"], ["x", "2002", "v"]]⟩⟩

/-- Witness for C2: the run classifies the concrete row as NewRow, and the
iff instance holds for it. -/
theorem C2_new_row_witness :
    (([RowResult.newRow] : List RowResult).getD 0 .untouched = .newRow ↔
      (keyOfRow c2wSt 0 ≠ "" ∧
        dictMem (build_lookup c2wSt.df_q1 "ID") (keyOfRow c2wSt 0) = false)) ∧
    (([RowResult.newRow] : List RowResult).getD 0 .untouched = .newRow →
      perColumn (([RowResult.newRow] : List RowResult).getD 0 .untouched) = none) :=
  C2_new_row c2wSt c2wSt ["C"] [RowResult.newRow] "ID" 0 (by rfl) (by rfl)
    (by decide) (by decide)

/-- Counterexample to C3 as stated: on this input the single current row has
an empty trimmed key, yet the run classifies it neither as NewRow nor
cell-by-cell — the loop body falls through, so the row is not "classified
exactly once" and receives no per-column classification at all. -/
theorem C3_empty_key_counterexample :
    runResults
      ⟨⟨["A", "ID"], [["y", "1"]]⟩, ⟨["A", "ID"], [["x", ""]]⟩, ⟨[["A", "ID"], ["x", ""]]⟩⟩
      ["A"] = some [RowResult.untouched] ∧
    isClassified RowResult.untouched = false :=
  ⟨rfl, rfl⟩

/-- C3 amended: every current-table row is classified at most once — NewRow
when its trimmed key is non-empty and missing from the baseline index,
cell-by-cell across every selected column (one classification per letter, in
order) when its trimmed key is non-empty and indexed, and not at all (the
row is skipped: neither NewRow nor per-column) when its trimmed key is
empty. -/
theorem C3_amended_row_partition (st st' : ProgState) (letters : List String)
    (results : List RowResult) (kh1 : String) (i : Nat)
    (hrun : highlight_q2_changes st letters = .ok (st', results))
    (hk : resolve_key_header_q1 st.df_q1 (header_from_letter st.ws "B") = some kh1)
    (hi : i < results.length)
    (hrow : i < st.df_q2.rows.length) :
    (keyOfRow st i ≠ "" →
      dictMem (build_lookup st.df_q1 kh1) (keyOfRow st i) = false →
      results.getD i .untouched = .newRow) ∧
    (keyOfRow st i ≠ "" →
      dictMem (build_lookup st.df_q1 kh1) (keyOfRow st i) = true →
      Option.map (List.map CellOut.letter) (perColumn (results.getD i .untouched))
        = some letters) ∧
    (keyOfRow st i = "" → results.getD i .untouched = .untouched) := by
  obtain ⟨kh1', hk', heq⟩ := highlight_ok_elim st letters st' results hrun
  rw [hk'] at hk
  injection hk with hkh
  subst hkh
  have hres : results = (mapState
      (processRow (header_from_letter st.ws "B") (build_lookup st.df_q1 kh1') letters
        (get_headers_for_letters st.ws letters)
        (find_matching_headers_in_q1 st.df_q1 (get_headers_for_letters st.ws letters)))
      st (rowNumbers (st.ws.max_row - 1))).2 := congrArg Prod.snd heq
  have hlen2 : i < (rowNumbers (st.ws.max_row - 1)).length := by
    rw [hres, mapState_length] at hi
    exact hi
  obtain ⟨s', hs', hgetD⟩ := mapState_getD_inv
    (processRow (header_from_letter st.ws "B") (build_lookup st.df_q1 kh1') letters
      (get_headers_for_letters st.ws letters)
      (find_matching_headers_in_q1 st.df_q1 (get_headers_for_letters st.ws letters)))
    (fun s2 => s2.df_q1 = st.df_q1 ∧ s2.df_q2 = st.df_q2)
    (fun s2 rr hs2 => by
      obtain ⟨h1, h2⟩ := processRow_preserves (header_from_letter st.ws "B")
        (build_lookup st.df_q1 kh1') letters
        (get_headers_for_letters st.ws letters)
        (find_matching_headers_in_q1 st.df_q1 (get_headers_for_letters st.ws letters)) s2 rr
      exact ⟨h1.trans hs2.1, h2.trans hs2.2⟩)
    .untouched 0
    (rowNumbers (st.ws.max_row - 1)) st ⟨rfl, rfl⟩ i hlen2
  rw [rowNumbers_getD _ i (by rwa [rowNumbers_length] at hlen2)] at hgetD
  have hpart := processRow_partition (header_from_letter st.ws "B")
    (build_lookup st.df_q1 kh1') letters
    (get_headers_for_letters st.ws letters)
    (find_matching_headers_in_q1 st.df_q1 (get_headers_for_letters st.ws letters)) s' (i + 2)
    (by rw [Nat.add_sub_cancel, hs'.2]; exact hrow)
    (build_lookup_key_ne_empty st.df_q1 kh1')
  rw [hs'.2, Nat.add_sub_cancel] at hpart
  rw [hres, hgetD]
  unfold keyOfRow
  exact hpart

/-- Concrete state of the C3 witness: current row keyed "1001", present in
the baseline index; one selected column C. -/
def c3wSt : ProgState :=
  ⟨⟨["x", "ID", "Val"], [["x", "1001", "Alpha Beta"]]⟩,
    ⟨["x", "ID", "Val"], [["x", "1001", "Alpha Gamma"]]⟩,
    ⟨[["x", "ID", "Val"], ["x", "1001", "Alpha Gamma"]]⟩⟩

/-- Witness for the amended C3 at the concrete matched row, whose result is
one per-column classification for the single selected letter. -/
theorem C3_amended_row_partition_witness :
    (keyOfRow c3wSt 0 ≠ "" →
      dictMem (build_lookup c3wSt.df_q1 "ID") (keyOfRow c3wSt 0) = false →
      ([RowResult.cells [⟨"C", CellClass.Changed, none⟩]] : List RowResult).getD 0 .untouched
        = .newRow) ∧
    (keyOfRow c3wSt 0 ≠ "" →
      dictMem (build_lookup c3wSt.df_q1 "ID") (keyOfRow c3wSt 0) = true →
      Option.map (List.map CellOut.letter)
        (perColumn (([RowResult.cells [⟨"C", CellClass.Changed, none⟩]] :
          List RowResult).getD 0 .untouched)) = some ["C"]) ∧
    (keyOfRow c3wSt 0 = "" →
      ([RowResult.cells [⟨"C", CellClass.Changed, none⟩]] : List RowResult).getD 0 .untouched
        = .untouched) :=
  C3_amended_row_partition c3wSt c3wSt ["C"]
    [RowResult.cells [⟨"C", CellClass.Changed, none⟩]] "ID" 0
    (by rfl) (by rfl) (by decide) (by decide)

/-- C6: key resolution looks the column-B header up in the baseline columns
by exact match first, else through the normalized-name dictionary
(lowercase, whitespace collapsed, stripped to alphanumerics and
underscores); when the key column resolves in neither table — the column-B
header is empty, or no baseline column matches — the run is the
RuntimeError outcome (the spec's LookupError), so no row is processed and
no output is produced. -/
theorem C6_key_resolution (st : ProgState) (letters : List String) (hl : letters ≠ []) :
    (header_from_letter st.ws "B" ∈ st.df_q1.columns →
      resolve_key_header_q1 st.df_q1 (header_from_letter st.ws "B")
        = some (header_from_letter st.ws "B")) ∧
    (header_from_letter st.ws "B" ∉ st.df_q1.columns →
      resolve_key_header_q1 st.df_q1 (header_from_letter st.ws "B")
        = normLastGet st.df_q1.columns (normalize_colname (header_from_letter st.ws "B"))) ∧
    ((header_from_letter st.ws "B" = "" ∨
      resolve_key_header_q1 st.df_q1 (header_from_letter st.ws "B") = none) →
      highlight_q2_changes st letters = .error .runtimeError) := by
  refine ⟨?_, ?_, ?_⟩
  · intro h
    unfold resolve_key_header_q1
    rw [if_pos h]
  · intro h
    unfold resolve_key_header_q1
    rw [if_neg h]
  · intro h
    unfold highlight_q2_changes
    rw [if_neg hl]
    dsimp only
    rcases h with hB | hres
    · rw [if_pos hB]
    · by_cases hB : header_from_letter st.ws "B" = ""
      · rw [if_pos hB]
      · rw [if_neg hB, hres]

/-- Witness for C6 on a concrete incompatible pair: the baseline has no
column matching the key header "OB Main ID" exactly or after normalization,
and the run is the RuntimeError outcome. -/
theorem C6_key_resolution_witness :
    (header_from_letter (⟨[["x", "OB Main ID"], ["x", "1"]]⟩ : Worksheet) "B"
        ∈ (⟨["Other"], [["y"]]⟩ : DataFrame).columns →
      resolve_key_header_q1 ⟨["Other"], [["y"]]⟩
          (header_from_letter (⟨[["x", "OB Main ID"], ["x", "1"]]⟩ : Worksheet) "B")
        = some (header_from_letter (⟨[["x", "OB Main ID"], ["x", "1"]]⟩ : Worksheet) "B")) ∧
    (header_from_letter (⟨[["x", "OB Main ID"], ["x", "1"]]⟩ : Worksheet) "B"
        ∉ (⟨["Other"], [["y"]]⟩ : DataFrame).columns →
      resolve_key_header_q1 ⟨["Other"], [["y"]]⟩
          (header_from_letter (⟨[["x", "OB Main ID"], ["x", "1"]]⟩ : Worksheet) "B")
        = normLastGet (⟨["Other"], [["y"]]⟩ : DataFrame).columns
            (normalize_colname
              (header_from_letter (⟨[["x", "OB Main ID"], ["x", "1"]]⟩ : Worksheet) "B"))) ∧
    ((header_from_letter (⟨[["x", "OB Main ID"], ["x", "1"]]⟩ : Worksheet) "B" = "" ∨
      resolve_key_header_q1 ⟨["Other"], [["y"]]⟩
          (header_from_letter (⟨[["x", "OB Main ID"], ["x", "1"]]⟩ : Worksheet) "B") = none) →
      highlight_q2_changes
          ⟨⟨["Other"], [["y"]]⟩, ⟨["Other"], [["y"]]⟩, ⟨[["x", "OB Main ID"], ["x", "1"]]⟩⟩
          ["A"] = .error .runtimeError) := by
  have h := C6_key_resolution
    ⟨⟨["Other"], [["y"]]⟩, ⟨["Other"], [["y"]]⟩, ⟨[["x", "OB Main ID"], ["x", "1"]]⟩⟩
    ["A"] (by decide)
  exact h

/-- C8: for a selected column whose row-1 header exists in the current
worksheet but matches no baseline column, exactly or after normalization,
the baseline value used for every row of that column is the empty string
and no error is raised: the cell is never classified Cleared, a non-empty
current value is classified Changed, and the run still completes. -/
theorem C8_missing_baseline_column (st : ProgState) (letters : List String) (L : String)
    (q1_row : List String) (r : Nat) (kh1 : String)
    (hL : L ∈ letters)
    (hnotin : st.ws.cell 1 (column_index_from_string L) ∉ st.df_q1.columns)
    (hnorm : normLastGet st.df_q1.columns
        (normalize_colname (st.ws.cell 1 (column_index_from_string L))) = none)
    (hl : letters ≠ [])
    (hB : header_from_letter st.ws "B" ≠ "")
    (hres : resolve_key_header_q1 st.df_q1 (header_from_letter st.ws "B") = some kh1) :
    q1_val_at st.df_q1 q1_row
        (q1_header_at (get_headers_for_letters st.ws letters)
          (find_matching_headers_in_q1 st.df_q1 (get_headers_for_letters st.ws letters)) L)
      = "" ∧
    ((pcell (get_headers_for_letters st.ws letters)
        (find_matching_headers_in_q1 st.df_q1 (get_headers_for_letters st.ws letters))
        q1_row r st L).2).cls ≠ .Cleared ∧
    (q2_val_at st r L ≠ "" →
      ((pcell (get_headers_for_letters st.ws letters)
          (find_matching_headers_in_q1 st.df_q1 (get_headers_for_letters st.ws letters))
          q1_row r st L).2).cls = .Changed) ∧
    isOkB (highlight_q2_changes st letters) = true := by
  have hmap : find_matching_headers_in_q1 st.df_q1 (get_headers_for_letters st.ws letters)
      = letters.map ((fun p : String × String =>
          if p.2 ∈ st.df_q1.columns then (p.1, p.2)
          else
            match normLastGet st.df_q1.columns (normalize_colname p.2) with
            | some c => (p.1, c)
            | none => (p.1, p.2))
        ∘ (fun x => (x, st.ws.cell 1 (column_index_from_string x)))) := by
    unfold find_matching_headers_in_q1 get_headers_for_letters
    rw [List.map_map]
  have hget := dictGet_map_keyed
    ((fun p : String × String =>
        if p.2 ∈ st.df_q1.columns then (p.1, p.2)
        else
          match normLastGet st.df_q1.columns (normalize_colname p.2) with
          | some c => (p.1, c)
          | none => (p.1, p.2))
      ∘ (fun x => (x, st.ws.cell 1 (column_index_from_string x))))
    (fun x => by
      dsimp only [Function.comp]
      split
      · rfl
      · split
        · rfl
        · rfl)
    L letters hL
  have hval : ((fun p : String × String =>
        if p.2 ∈ st.df_q1.columns then (p.1, p.2)
        else
          match normLastGet st.df_q1.columns (normalize_colname p.2) with
          | some c => (p.1, c)
          | none => (p.1, p.2))
      ∘ (fun x => (x, st.ws.cell 1 (column_index_from_string x)))) L
      = (L, st.ws.cell 1 (column_index_from_string L)) := by
    dsimp only [Function.comp]
    rw [if_neg hnotin, hnorm]
  rw [hval] at hget
  have hq1head : q1_header_at (get_headers_for_letters st.ws letters)
      (find_matching_headers_in_q1 st.df_q1 (get_headers_for_letters st.ws letters)) L
      = some (st.ws.cell 1 (column_index_from_string L)) := by
    unfold q1_header_at
    rw [hmap, hget]
  have hq1val : q1_val_at st.df_q1 q1_row
      (q1_header_at (get_headers_for_letters st.ws letters)
        (find_matching_headers_in_q1 st.df_q1 (get_headers_for_letters st.ws letters)) L)
      = "" := by
    rw [hq1head]
    unfold q1_val_at
    dsimp only
    rw [if_neg hnotin]
  have hcls := pcell_cls (get_headers_for_letters st.ws letters)
    (find_matching_headers_in_q1 st.df_q1 (get_headers_for_letters st.ws letters)) q1_row r st L
  rw [hq1val] at hcls
  refine ⟨hq1val, ?_, ?_, ?_⟩
  · rw [hcls]
    unfold classify_cell
    rw [if_neg (by rintro ⟨hfalse, _⟩; exact hfalse rfl)]
    by_cases hv : q2_val_at st r L = ""
    · rw [if_neg (by rw [hv]; exact fun hne => hne rfl)]
      intro hfalse
      exact CellClass.noConfusion hfalse
    · rw [if_pos (by rw [ne_eq]; simpa using hv)]
      intro hfalse
      exact CellClass.noConfusion hfalse
  · intro hv
    rw [hcls]
    unfold classify_cell
    rw [if_neg (by rintro ⟨hfalse, _⟩; exact hfalse rfl)]
    rw [if_pos (by rw [ne_eq]; simpa using hv)]
  · unfold highlight_q2_changes
    rw [if_neg hl]
    dsimp only
    rw [if_neg hB, hres]
    rfl

/-- Concrete state of the C8 witness: selected column C is headed "Desc" in
the current workbook, and the baseline has no column matching "Desc"
exactly or after normalization. -/
def c8wSt : ProgState :=
  ⟨⟨["K", "ID"], [["y", "1"]]⟩, ⟨["K", "ID", "Desc"], [["x", "2", "note"]]⟩,
    ⟨[["K", "ID", "Desc"], ["x", "2", "note"]]⟩⟩

/-- Witness for C8 at the concrete unresolvable column C. -/
theorem C8_missing_baseline_column_witness :

    q1_val_at c8wSt.df_q1 ["y", "1"]
        (q1_header_at (get_headers_for_letters c8wSt.ws ["C"])
          (find_matching_headers_in_q1 c8wSt.df_q1 (get_headers_for_letters c8wSt.ws ["C"])) "C")
      = "" ∧
    ((pcell (get_headers_for_letters c8wSt.ws ["C"])
        (find_matching_headers_in_q1 c8wSt.df_q1 (get_headers_for_letters c8wSt.ws ["C"]))
        ["y", "1"] 2 c8wSt "C").2).cls ≠ .Cleared ∧
    (q2_val_at c8wSt 2 "C" ≠ "" →
      ((pcell (get_headers_for_letters c8wSt.ws ["C"])
          (find_matching_headers_in_q1 c8wSt.df_q1 (get_headers_for_letters c8wSt.ws ["C"]))
          ["y", "1"] 2 c8wSt "C").2).cls = .Changed) ∧
    isOkB (highlight_q2_changes c8wSt ["C"]) = true :=
  C8_missing_baseline_column c8wSt ["C"] "C" ["y", "1"] 2 "ID"
    (by decide) (by decide) (by rfl) (by decide) (by decide) (by rfl)

/-- Witness for C1 at the concrete Cleared pair: baseline "Alpha", current
empty. -/
theorem C1_cell_classification_witness :

    (classify_cell "Alpha" "" = .Cleared ↔ ("Alpha" ≠ "" ∧ "" = "")) ∧
    (classify_cell "Alpha" "" = .Unchanged ↔ "" = "Alpha") ∧
    (classify_cell "Alpha" "" = .Changed ↔
      ("" ≠ "Alpha" ∧ ¬("Alpha" ≠ "" ∧ "" = ""))) ∧
    ((pcell ([] : List (String × String)) ([] : List (String × String)) ([] : List String) 0 (⟨⟨[], []⟩, ⟨[], []⟩, ⟨[]⟩⟩ : ProgState) "A").2).cls
      = classify_cell (q1_val_at (⟨⟨[], []⟩, ⟨[], []⟩, ⟨[]⟩⟩ : ProgState).df_q1 ([] : List String) (q1_header_at ([] : List (String × String)) ([] : List (String × String)) "A"))
          (q2_val_at (⟨⟨[], []⟩, ⟨[], []⟩, ⟨[]⟩⟩ : ProgState) 0 "A") :=
  C1_cell_classification "Alpha" "" [] [] [] 0 ⟨⟨[], []⟩, ⟨[], []⟩, ⟨[]⟩⟩ "A"
